import Mathlib

/-!
# Verification of the Gazebo server orchestration layer (`src/gazebo/Server.cc`)

Shallow embedding of `Server.cc`: the control-message queue (`OnControl`,
`ProcessControlMsgs`), the world reload pipeline (`OpenWorld`), and the
simulation loop (`Run`).  External collaborators (the sdf parser, the physics
subsystem, the sensor subsystem, the transport layer) are modelled as a
parse environment and as state transformers over an explicit simulation
state; side effects (topic publications, subsystem calls, error logging)
are recorded in an event trace.
-/

namespace Gazebo

/-- A `msgs::WorldModify` message published on `/gazebo/world/modify`
(protobuf optional bools default to `false` when unset). -/
structure WorldModify where
  world_name : String
  remove : Bool
  create : Bool
deriving Repr, DecidableEq

/-- A `msgs::ServerControl` message arriving on `/gazebo/server/control`;
every protobuf field is optional (`has_*` ↔ `Option.isSome`). -/
structure ServerControl where
  save_world_name : Option String := none
  save_filename : Option String := none
  new_world : Option Bool := none
  open_filename : Option String := none
deriving Repr, DecidableEq

/-- A live world owned by the physics subsystem.  `id` is a ghost instance
tag distinguishing successive worlds that share the name `"default"`;
`models` is the model set loaded from the world description; `running`
is whether the world's physics thread is started. -/
structure World where
  id : Nat
  name : String
  models : List String
  running : Bool
deriving Repr, DecidableEq

/-- The `<world>` element of a parsed sdf description tree
(`sdf->root->GetElement("world")`). -/
structure WorldElem where
  models : List String
deriving Repr, DecidableEq

/-- A parsed sdf description tree root. -/
structure SdfRoot where
  world : WorldElem
deriving Repr, DecidableEq

/-- Observable effects of the server, in program order.  `evExecCmd` is ghost
instrumentation marking that `ProcessControlMsgs` dispatched one drained
command (loop body entry, Server.cc:430); every other constructor is an
actual call or publication made by `Server.cc`. -/
inductive Event where
  | pubWorldModify (m : WorldModify)
  | evGzerr (msg : String)
  | evExecCmd (c : ServerControl)
  | evSaveWorld (worldId : Nat) (filename : String)
  | evStopWorlds
  | evRemoveWorlds
  | evRemoveSensors
  | evClearBuffers
  | evCreateWorld (id : Nat)
  | evLoadWorld (id : Nat)
  | evInitWorld (id : Nat)
  | evRunWorld (id : Nat)
  | evSensorsRunOnce
  | evRunWorlds
  | evProcessControlMsgs
  | evSleep
  | evStopSensors
  | evStopGazebo
  | evStopMaster
deriving Repr, DecidableEq

/-- State of the subsystems the server orchestrates: the physics world set,
the attached sensors, the buffered transport messages, a ghost counter
supplying fresh world instance tags, and the event trace. -/
structure SimState where
  worlds : List World
  sensors : List String
  buffers : Nat
  nextId : Nat
  trace : List Event
deriving Repr, DecidableEq

/-- The parse environment: whether `sdf::init` succeeds, and the result of
`sdf::readFile` on each filename (`none` = unreadable or malformed). -/
structure Env where
  sdfInitOk : Bool
  readFile : String → Option SdfRoot

/-- Append one event to the trace. -/
def emit (e : Event) (s : SimState) : SimState :=
  { s with trace := s.trace ++ [e] }

/-- Modelled from the spec: `physics::get_world(name)` (physics subsystem,
not under src/) — a name-based lookup that finds a live world or reports
that none with that name exists (§4.3 "look up the named world; if found…"). -/
def get_world (name : String) (s : SimState) : Option World :=
  s.worlds.find? (fun w => w.name = name)

/-- Modelled from the spec: `physics::stop_worlds()` stops every world's
physics thread (§4.5 step 3, §4.4). -/
def stop_worlds (s : SimState) : SimState :=
  emit .evStopWorlds { s with worlds := s.worlds.map (fun w => { w with running := false }) }

/-- Modelled from the spec: `physics::remove_worlds()` removes every current
world instance (§4.5 step 3). -/
def remove_worlds (s : SimState) : SimState :=
  emit .evRemoveWorlds { s with worlds := [] }

/-- Modelled from the spec: `sensors::remove_sensors()` removes all attached
sensors (§4.5 step 3). -/
def remove_sensors (s : SimState) : SimState :=
  emit .evRemoveSensors { s with sensors := [] }

/-- Modelled from the spec: `transport::clear_buffers()` clears buffered
transport messages tied to the old world (§4.5 step 3). -/
def clear_buffers (s : SimState) : SimState :=
  emit .evClearBuffers { s with buffers := 0 }

/-- Modelled from the spec: `physics::create_world()` registers a fresh,
empty, not-yet-running world; reload always (re)creates the single world
named `"default"` (§3 WorldHandle invariant). -/
def create_world (s : SimState) : Nat × SimState :=
  let w : World := { id := s.nextId, name := "default", models := [], running := false }
  (s.nextId,
    emit (.evCreateWorld s.nextId)
      { s with worlds := s.worlds ++ [w], nextId := s.nextId + 1 })

/-- Update the world with instance tag `i` in place (pointer mutation through
the `WorldPtr` returned by `create_world`). -/
def updateWorld (i : Nat) (f : World → World) (s : SimState) : SimState :=
  { s with worlds := s.worlds.map (fun w => if w.id = i then f w else w) }

/-- Modelled from the spec: `physics::load_world(world, elem)` populates the
world from the validated description (§4.5 step 4). -/
def load_world (i : Nat) (elem : WorldElem) (s : SimState) : SimState :=
  emit (.evLoadWorld i) (updateWorld i (fun w => { w with models := elem.models }) s)

/-- Modelled from the spec: `physics::init_world(world)` initializes the
freshly constructed world (§4.5 step 4). -/
def init_world (i : Nat) (s : SimState) : SimState :=
  emit (.evInitWorld i) s

/-- Modelled from the spec: `physics::run_world(world)` starts the world's
physics thread (§4.5 step 4). -/
def run_world (i : Nat) (s : SimState) : SimState :=
  emit (.evRunWorld i) (updateWorld i (fun w => { w with running := true }) s)

/-- `Server::OpenWorld(filename)`, Server.cc:452-495: validate the
replacement source, then publish `{default, remove:true}`, tear down the
old world, build/start the new one, publish `{default, create:true}`. -/
def OpenWorld (env : Env) (filename : String) (s : SimState) : Bool × SimState :=
  if !env.sdfInitOk then
    (false, emit (.evGzerr "Unable to initialize sdf") s)
  else
    match env.readFile filename with
    | none =>
      (false, emit (.evGzerr ("Unable to read sdf file[" ++ filename ++ "]")) s)
    | some root =>
      let s := emit (.pubWorldModify { world_name := "default", remove := true, create := false }) s
      let s := stop_worlds s
      let s := remove_worlds s
      let s := remove_sensors s
      let s := clear_buffers s
      let worldElem := root.world
      let (i, s) := create_world s
      let s := load_world i worldElem s
      let s := init_world i s
      let s := run_world i s
      (true, emit (.pubWorldModify { world_name := "default", remove := false, create := true }) s)

/-- The lifecycle notifications in a trace, in publication order. -/
def pubs (tr : List Event) : List WorldModify :=
  tr.filterMap (fun e => match e with | .pubWorldModify m => some m | _ => none)

/-- The ghost dispatch markers in a trace: which drained commands were
executed, in execution order. -/
def execs (tr : List Event) : List ServerControl :=
  tr.filterMap (fun e => match e with | .evExecCmd c => some c | _ => none)

/-- A trace with the ghost dispatch markers erased: the actual effects. -/
def effects (tr : List Event) : List Event :=
  tr.filter (fun e => match e with | .evExecCmd _ => false | _ => true)

/-- Dispatch of one drained control message: the `if`/`else if` chain in the
loop body of `Server::ProcessControlMsgs` (Server.cc:431-446).  `.error ()`
models the unchecked dereference `world->Save(...)` at Server.cc:435 when
`physics::get_world` found no world with the requested name: the process
faults and no further command of the batch runs. -/
def execMsg (env : Env) (msg : ServerControl) (s : SimState) : Except Unit SimState :=
  let s := emit (.evExecCmd msg) s
  match msg.save_world_name with
  | some wname =>
    match msg.save_filename with
    | some fname =>
      match get_world wname s with
      | some w => .ok (emit (.evSaveWorld w.id fname) s)
      | none => .error ()
    | none => .ok (emit (.evGzerr "No filename specified.") s)
  | none =>
    if msg.new_world = some true then
      .ok (OpenWorld env "worlds/empty.world" s).2
    else
      match msg.open_filename with
      | some fname => .ok (OpenWorld env fname s).2
      | none => .ok s

/-- Execute a list of drained control messages front to back
(the iteration `for (iter = controlMsgs.begin(); ...)`, Server.cc:428-447). -/
def processList (env : Env) : List ServerControl → SimState → Except Unit SimState
  | [], s => .ok s
  | m :: rest, s =>
    match execMsg env m s with
    | .ok s1 => processList env rest s1
    | .error e => .error e

/-- The server-owned mutable state the control channel touches: the command
queue `controlMsgs` and the simulation state. -/
structure ServerState where
  controlMsgs : List ServerControl
  sim : SimState
deriving Repr, DecidableEq

/-- `Server::OnControl(msg)` (Server.cc:418-422): append the inbound message
at the back of the command queue (under `receiveMutex`). -/
def OnControl (msg : ServerControl) (st : ServerState) : ServerState :=
  { st with controlMsgs := st.controlMsgs ++ [msg] }

/-- `Server::ProcessControlMsgs()` (Server.cc:425-449): execute every queued
message in arrival order, then clear the queue.  The clear at Server.cc:448
runs only if no command faulted. -/
def ProcessControlMsgs (env : Env) (st : ServerState) : Except Unit ServerState :=
  match processList env st.controlMsgs st.sim with
  | .ok s1 => .ok { controlMsgs := [], sim := s1 }
  | .error e => .error e

/-- Enqueue a batch of messages via `OnControl`, in arrival order. -/
def enqueueAll (msgs : List ServerControl) (st : ServerState) : ServerState :=
  msgs.foldl (fun st m => OnControl m st) st

/-- `bool Server::stop = true;` — the initial value of the stop flag
(Server.cc:45). -/
def stopInitial : Bool := true

/-- The value `Server::Init()` leaves in the stop flag
(`this->stop = false`, Server.cc:307). -/
def stopAfterInit : Bool := false

/-- The subsystem calls made by one steady-state iteration of `Server::Run`
(Server.cc:353-358), repeated until the stop flag is observed set after
`iters` iterations. -/
def loopIters : Nat → List Event
  | 0 => []
  | n + 1 => [.evProcessControlMsgs, .evSensorsRunOnce, .evSleep] ++ loopIters n

/-- The sequence of subsystem calls `Server::Run` makes (Server.cc:340-370),
given the stop flag at entry and the number of loop iterations performed
before the asynchronously written stop flag is observed set. -/
def RunTrace (stop : Bool) (iters : Nat) : List Event :=
  if stop then []
  else
    [.evSensorsRunOnce, .evRunWorlds] ++ loopIters iters ++
      [.evStopWorlds, .evStopSensors, .evStopGazebo, .evStopMaster]

/-- Lock and queue operations, for the synchronization discipline of the
command queue shared between the transport callback thread (`OnControl`)
and the Simulation Loop thread (`ProcessControlMsgs`). -/
inductive SyncOp where
  | lockAcquire
  | lockRelease
  | queuePushBack (m : ServerControl)
  | queueIterRead (m : ServerControl)
  | queueClear
  | execCommand (m : ServerControl)
deriving Repr, DecidableEq

/-- Whether a synchronization operation touches the shared command queue. -/
def SyncOp.touchesQueue : SyncOp → Bool
  | .queuePushBack _ => true
  | .queueIterRead _ => true
  | .queueClear => true
  | _ => false

/-- The operation sequence of `Server::OnControl` (Server.cc:418-422):
`boost::mutex::scoped_lock lock(*this->receiveMutex)` then `push_back`,
the lock released when the scope exits. -/
def OnControlSync (m : ServerControl) : List SyncOp :=
  [.lockAcquire, .queuePushBack m, .lockRelease]

/-- The operation sequence of `Server::ProcessControlMsgs` (Server.cc:425-449):
read each element of the live queue and execute it, then clear the queue.
The function body contains no lock operation. -/
def ProcessControlMsgsSync (msgs : List ServerControl) : List SyncOp :=
  (msgs.map (fun m => [SyncOp.queueIterRead m, SyncOp.execCommand m])).flatten ++
    [SyncOp.queueClear]

/-- Every queue operation in the sequence happens while the lock is held,
starting from `depth` nested acquisitions. -/
def queueOpsLocked : List SyncOp → Nat → Bool
  | [], _ => true
  | .lockAcquire :: rest, d => queueOpsLocked rest (d + 1)
  | .lockRelease :: rest, d => queueOpsLocked rest (d - 1)
  | op :: rest, d => (!op.touchesQueue || decide (0 < d)) && queueOpsLocked rest d

theorem pubs_append (a b : List Event) : pubs (a ++ b) = pubs a ++ pubs b := by
  simp [pubs, List.filterMap_append]

theorem execs_append (a b : List Event) : execs (a ++ b) = execs a ++ execs b := by
  simp [execs, List.filterMap_append]

theorem effects_append (a b : List Event) : effects (a ++ b) = effects a ++ effects b := by
  simp [effects, List.filter_append]

/-- Concrete parse environment whose `sdf::readFile` always fails. -/
def envReadFail : Env := { sdfInitOk := true, readFile := fun _ => none }

/-- Concrete parse environment that parses every file into a one-model world
description. -/
def envParseOk : Env :=
  { sdfInitOk := true, readFile := fun _ => some { world := { models := ["sphere"] } } }

/-- A running single-world simulation state: one world named `"default"`
with one model and a started physics thread, one sensor, two buffered
transport messages. -/
def sRunning : SimState :=
  { worlds := [{ id := 0, name := "default", models := ["box"], running := true }],
    sensors := ["cam"], buffers := 2, nextId := 1, trace := [] }

/-- C1: a call to `OpenWorld(filename)` whose replacement source fails to
parse (sdf initialization or file read fails) returns failure, publishes
zero lifecycle notifications on the world-modify topic, and leaves the
running world's state (model set, physics thread), the sensors and the
buffers unchanged. -/
theorem C1_openWorld_parse_failure_leaves_world_untouched
    (env : Env) (filename : String) (s : SimState)
    (h : env.sdfInitOk = false ∨ env.readFile filename = none) :
    (OpenWorld env filename s).1 = false ∧
    (OpenWorld env filename s).2.worlds = s.worlds ∧
    (OpenWorld env filename s).2.sensors = s.sensors ∧
    (OpenWorld env filename s).2.buffers = s.buffers ∧
    pubs (OpenWorld env filename s).2.trace = pubs s.trace := by
  rcases h with h | h
  · simp [OpenWorld, h, emit, pubs, List.filterMap_append]
  · cases hI : env.sdfInitOk
    · simp [OpenWorld, hI, emit, pubs, List.filterMap_append]
    · simp [OpenWorld, hI, h, emit, pubs, List.filterMap_append]

/-- Witness for C1 at a concrete failing read on a running world. -/
theorem C1_witness :
    (envReadFail.sdfInitOk = false ∨ envReadFail.readFile "broken.world" = none) ∧
    ((OpenWorld envReadFail "broken.world" sRunning).1 = false ∧
     (OpenWorld envReadFail "broken.world" sRunning).2.worlds = sRunning.worlds ∧
     (OpenWorld envReadFail "broken.world" sRunning).2.sensors = sRunning.sensors ∧
     (OpenWorld envReadFail "broken.world" sRunning).2.buffers = sRunning.buffers ∧
     pubs (OpenWorld envReadFail "broken.world" sRunning).2.trace = pubs sRunning.trace) :=
  ⟨Or.inr rfl,
   C1_openWorld_parse_failure_leaves_world_untouched envReadFail "broken.world" sRunning
     (Or.inr rfl)⟩

/-- C2: a call to `OpenWorld(filename)` whose replacement source is valid
publishes exactly two lifecycle notifications, `{default, remove:true}`
before the teardown of the old world and `{default, create:true}` after
the new world's physics thread is started, and afterwards the world named
`"default"` is the new instance (its ghost tag is fresh), not the old one. -/
theorem C2_openWorld_success_two_notifications_new_instance
    (env : Env) (filename : String) (s : SimState) (root : SdfRoot)
    (hI : env.sdfInitOk = true) (hR : env.readFile filename = some root)
    (hIds : ∀ w ∈ s.worlds, w.id < s.nextId) :
    (OpenWorld env filename s).1 = true ∧
    (OpenWorld env filename s).2.trace = s.trace ++
      [.pubWorldModify { world_name := "default", remove := true, create := false },
       .evStopWorlds, .evRemoveWorlds, .evRemoveSensors, .evClearBuffers,
       .evCreateWorld s.nextId, .evLoadWorld s.nextId, .evInitWorld s.nextId,
       .evRunWorld s.nextId,
       .pubWorldModify { world_name := "default", remove := false, create := true }] ∧
    pubs (OpenWorld env filename s).2.trace = pubs s.trace ++
      [{ world_name := "default", remove := true, create := false },
       { world_name := "default", remove := false, create := true }] ∧
    get_world "default" (OpenWorld env filename s).2 =
      some { id := s.nextId, name := "default",
             models := root.world.models, running := true } ∧
    (∀ w ∈ s.worlds, w.id ≠ s.nextId) := by
  refine ⟨?_, ?_, ?_, ?_, fun w hw => Nat.ne_of_lt (hIds w hw)⟩ <;>
    simp [OpenWorld, hI, hR, emit, stop_worlds, remove_worlds, remove_sensors,
      clear_buffers, create_world, load_world, init_world, run_world, updateWorld,
      get_world, pubs, List.filterMap_append, List.find?]

/-- Witness for C2 at a concrete successful reload on a running world. -/
theorem C2_witness :
    (OpenWorld envParseOk "new.world" sRunning).1 = true ∧
    get_world "default" (OpenWorld envParseOk "new.world" sRunning).2 =
      some { id := 1, name := "default", models := ["sphere"], running := true } :=
  ⟨(C2_openWorld_success_two_notifications_new_instance envParseOk "new.world" sRunning
      { world := { models := ["sphere"] } } rfl rfl (by decide)).1,
   (C2_openWorld_success_two_notifications_new_instance envParseOk "new.world" sRunning
      { world := { models := ["sphere"] } } rfl rfl (by decide)).2.2.2.1⟩

theorem OpenWorld_execs (env : Env) (f : String) (s : SimState) :
    execs (OpenWorld env f s).2.trace = execs s.trace := by
  cases hI : env.sdfInitOk
  · simp [OpenWorld, hI, emit, execs, List.filterMap_append]
  · cases hR : env.readFile f
    · simp [OpenWorld, hI, hR, emit, execs, List.filterMap_append]
    · simp [OpenWorld, hI, hR, emit, stop_worlds, remove_worlds, remove_sensors,
        clear_buffers, create_world, load_world, init_world, run_world, updateWorld,
        execs, List.filterMap_append]

theorem execs_emit_cmd (m : ServerControl) (s : SimState) :
    execs (emit (.evExecCmd m) s).trace = execs s.trace ++ [m] := by
  simp [emit, execs, List.filterMap_append]

theorem execMsg_ok_execs (env : Env) (m : ServerControl) (s s1 : SimState)
    (h : execMsg env m s = .ok s1) :
    execs s1.trace = execs s.trace ++ [m] := by
  unfold execMsg at h
  cases hw : m.save_world_name with
  | some wname =>
    simp only [hw] at h
    cases hf : m.save_filename with
    | some fname =>
      simp only [hf] at h
      cases hg : get_world wname (emit (.evExecCmd m) s) with
      | some w =>
        simp only [hg] at h
        injection h with h
        subst h
        simp [emit, execs, List.filterMap_append]
      | none => simp only [hg] at h; simp at h
    | none =>
      simp only [hf] at h
      injection h with h
      subst h
      simp [emit, execs, List.filterMap_append]
  | none =>
    simp only [hw] at h
    by_cases hn : m.new_world = some true
    · rw [if_pos hn] at h
      injection h with h
      subst h
      rw [OpenWorld_execs, execs_emit_cmd]
    · rw [if_neg hn] at h
      cases ho : m.open_filename with
      | some fname =>
        simp only [ho] at h
        injection h with h
        subst h
        rw [OpenWorld_execs, execs_emit_cmd]
      | none =>
        simp only [ho] at h
        injection h with h
        subst h
        exact execs_emit_cmd m s

theorem processList_ok_execs (env : Env) :
    ∀ (msgs : List ServerControl) (s s1 : SimState),
      processList env msgs s = .ok s1 →
      execs s1.trace = execs s.trace ++ msgs := by
  intro msgs
  induction msgs with
  | nil =>
    intro s s1 h
    unfold processList at h
    injection h with h
    subst h
    simp
  | cons m rest ih =>
    intro s s1 h
    unfold processList at h
    cases he : execMsg env m s with
    | ok s2 =>
      rw [he] at h
      rw [ih s2 s1 h, execMsg_ok_execs env m s s2 he]
      simp
    | error e => rw [he] at h; cases h

theorem enqueueAll_cons (m : ServerControl) (rest : List ServerControl)
    (st : ServerState) :
    enqueueAll (m :: rest) st = enqueueAll rest (OnControl m st) := rfl

theorem enqueueAll_spec (msgs : List ServerControl) :
    ∀ st : ServerState,
      (enqueueAll msgs st).controlMsgs = st.controlMsgs ++ msgs ∧
      (enqueueAll msgs st).sim = st.sim := by
  induction msgs with
  | nil => intro st; simp [enqueueAll]
  | cons m rest ih =>
    intro st
    rw [enqueueAll_cons]
    obtain ⟨h1, h2⟩ := ih (OnControl m st)
    constructor
    · rw [h1]; simp [OnControl]
    · rw [h2]; simp [OnControl]

/-- A control message with no field set. -/
def cmdNoop : ServerControl := {}

/-- A save request naming a world that does not exist, with a filename. -/
def cmdSaveMissingWorld : ServerControl :=
  { save_world_name := some "missing", save_filename := some "out.world" }

/-- A save request naming the running `"default"` world, with a filename. -/
def cmdSaveGood : ServerControl :=
  { save_world_name := some "default", save_filename := some "saved.world" }

/-- A simulation state with no live world. -/
def sNoWorlds : SimState :=
  { worlds := [], sensors := [], buffers := 0, nextId := 0, trace := [] }

/-- Counterexample to C3 as stated: a batch of two enqueued commands whose
second names an absent world with a filename present.  `ProcessControlMsgs`
faults at that command (unchecked `world->Save` on a null handle,
Server.cc:435): the batch aborts, so not every enqueued command executes
and the queue clear at Server.cc:448 is never reached. -/
theorem C3_counterexample :
    ProcessControlMsgs envParseOk
      (enqueueAll [cmdNoop, cmdSaveMissingWorld] { controlMsgs := [], sim := sNoWorlds }) =
      .error () := rfl

/-- C3 (amended): for every batch of commands enqueued via `OnControl` whose
execution hits no absent-world dereference, one call to
`ProcessControlMsgs` executes all of them in FIFO arrival order (the
dispatch markers in the final trace list the commands in enqueue order)
and leaves the command queue empty. -/
theorem C3_fifo_drain_clears_queue
    (env : Env) (msgs : List ServerControl) (s0 s1 : SimState)
    (h : processList env msgs s0 = .ok s1) :
    (enqueueAll msgs { controlMsgs := [], sim := s0 }).controlMsgs = msgs ∧
    ProcessControlMsgs env (enqueueAll msgs { controlMsgs := [], sim := s0 }) =
      .ok { controlMsgs := [], sim := s1 } ∧
    execs s1.trace = execs s0.trace ++ msgs := by
  obtain ⟨hq, hs⟩ := enqueueAll_spec msgs { controlMsgs := [], sim := s0 }
  refine ⟨by simpa using hq, ?_, processList_ok_execs env msgs s0 s1 h⟩
  simp only [ProcessControlMsgs, hq, hs]
  simp [h]

/-- The simulation state after draining `[cmdNoop, cmdSaveGood]` from
`sRunning`. -/
def sAfterBatch : SimState :=
  { sRunning with
    trace := [.evExecCmd cmdNoop, .evExecCmd cmdSaveGood,
              .evSaveWorld 0 "saved.world"] }

/-- Witness for the amended C3 at a concrete two-command batch. -/
theorem C3_witness :
    ProcessControlMsgs envParseOk
      (enqueueAll [cmdNoop, cmdSaveGood] { controlMsgs := [], sim := sRunning }) =
      .ok { controlMsgs := [], sim := sAfterBatch } ∧
    execs sAfterBatch.trace = execs sRunning.trace ++ [cmdNoop, cmdSaveGood] :=
  ⟨(C3_fifo_drain_clears_queue envParseOk [cmdNoop, cmdSaveGood] sRunning sAfterBatch
      rfl).2.1,
   (C3_fifo_drain_clears_queue envParseOk [cmdNoop, cmdSaveGood] sRunning sAfterBatch
      rfl).2.2⟩

/-- C4: divergence from the claim, evaluated on the code's operation
sequences.  `OnControl` does append under the queue lock, but
`ProcessControlMsgs` contains no lock acquisition at all: it reads and
clears the shared queue with the lock never held, and executes commands
while iterating the live queue rather than after moving its contents out. -/
theorem C4_process_drains_queue_without_lock :
    queueOpsLocked (OnControlSync cmdNoop) 0 = true ∧
    queueOpsLocked (ProcessControlMsgsSync [cmdNoop]) 0 = false ∧
    SyncOp.lockAcquire ∉ ProcessControlMsgsSync [cmdNoop] := by decide

/-- C5: divergence from the claim, evaluated on the code.  A `SaveWorld`
command naming a world that does not exist, with a filename present,
makes `ProcessControlMsgs` dereference the absent world handle
(`world->Save(...)`, Server.cc:435): the lookup result is never checked
before serialization. -/
theorem C5_save_dereferences_absent_world :
    get_world "missing" sNoWorlds = none ∧
    execMsg envParseOk cmdSaveMissingWorld sNoWorlds = .error () :=
  ⟨rfl, rfl⟩

/-- A save request naming the running `"default"` world with no filename. -/
def cmdSaveNoFile : ServerControl := { save_world_name := some "default" }

/-- C6: a `SaveWorld` command with `save_filename` absent logs
"No filename specified.", does not fault or terminate the loop (its
dispatch returns normally), modifies no world, sensor or buffer state,
publishes nothing, and the remaining commands of the batch execute
exactly as if processing had started from the logged state. -/
theorem C6_save_without_filename_recoverable
    (env : Env) (m : ServerControl) (wname : String) (s : SimState)
    (rest : List ServerControl)
    (hw : m.save_world_name = some wname) (hf : m.save_filename = none) :
    execMsg env m s =
      .ok (emit (.evGzerr "No filename specified.") (emit (.evExecCmd m) s)) ∧
    ((emit (.evGzerr "No filename specified.") (emit (.evExecCmd m) s)).worlds = s.worlds ∧
     (emit (.evGzerr "No filename specified.") (emit (.evExecCmd m) s)).sensors = s.sensors ∧
     (emit (.evGzerr "No filename specified.") (emit (.evExecCmd m) s)).buffers = s.buffers ∧
     pubs (emit (.evGzerr "No filename specified.") (emit (.evExecCmd m) s)).trace =
       pubs s.trace) ∧
    processList env (m :: rest) s =
      processList env rest
        (emit (.evGzerr "No filename specified.") (emit (.evExecCmd m) s)) := by
  have h1 : execMsg env m s =
      .ok (emit (.evGzerr "No filename specified.") (emit (.evExecCmd m) s)) := by
    unfold execMsg
    simp only [hw, hf]
  refine ⟨h1, ⟨by simp [emit], by simp [emit], by simp [emit],
    by simp [emit, pubs, List.filterMap_append]⟩, ?_⟩
  have h2 : processList env (m :: rest) s =
      match execMsg env m s with
      | Except.ok s1 => processList env rest s1
      | Except.error e => Except.error e := rfl
  rw [h2, h1]

/-- Witness for C6 at a concrete filename-less save followed by another
command. -/
theorem C6_witness :
    execMsg envParseOk cmdSaveNoFile sRunning =
      .ok (emit (.evGzerr "No filename specified.")
            (emit (.evExecCmd cmdSaveNoFile) sRunning)) ∧
    ((emit (.evGzerr "No filename specified.")
        (emit (.evExecCmd cmdSaveNoFile) sRunning)).worlds = sRunning.worlds ∧
     (emit (.evGzerr "No filename specified.")
        (emit (.evExecCmd cmdSaveNoFile) sRunning)).sensors = sRunning.sensors ∧
     (emit (.evGzerr "No filename specified.")
        (emit (.evExecCmd cmdSaveNoFile) sRunning)).buffers = sRunning.buffers ∧
     pubs (emit (.evGzerr "No filename specified.")
        (emit (.evExecCmd cmdSaveNoFile) sRunning)).trace = pubs sRunning.trace) ∧
    processList envParseOk (cmdSaveNoFile :: [cmdNoop]) sRunning =
      processList envParseOk [cmdNoop]
        (emit (.evGzerr "No filename specified.")
          (emit (.evExecCmd cmdSaveNoFile) sRunning)) :=
  C6_save_without_filename_recoverable envParseOk cmdSaveNoFile "default" sRunning
    [cmdNoop] rfl rfl

theorem loopIters_mem (n : Nat) :
    ∀ e ∈ loopIters n,
      e = Event.evProcessControlMsgs ∨ e = Event.evSensorsRunOnce ∨ e = Event.evSleep := by
  induction n with
  | zero => intro e he; simp [loopIters] at he
  | succ k ih =>
    intro e he
    simp only [loopIters, List.cons_append, List.nil_append, List.mem_cons] at he
    rcases he with rfl | rfl | rfl | h
    · exact Or.inl rfl
    · exact Or.inr (Or.inl rfl)
    · exact Or.inr (Or.inr rfl)
    · exact ih e h

/-- C7: when the stop flag is observed set, `Run` shuts down the subsystems
strictly in the order stop-worlds, stop-sensors, stop-gazebo, stop-master
(the reverse of initialization) as the final four calls; before the
steady-state loop it advances the sensors once synchronously and only then
starts the world physics threads; and no shutdown call occurs inside a
loop iteration. -/
theorem C7_startup_and_shutdown_order (n : Nat) :
    RunTrace false n =
      [.evSensorsRunOnce, .evRunWorlds] ++ loopIters n ++
        [.evStopWorlds, .evStopSensors, .evStopGazebo, .evStopMaster] ∧
    (∀ e ∈ loopIters n,
      e = Event.evProcessControlMsgs ∨ e = Event.evSensorsRunOnce ∨ e = Event.evSleep) := by
  exact ⟨by simp [RunTrace], loopIters_mem n⟩

/-- C9: `Run` called while the stop flag is true — in particular with its
initial value, before `Init` clears it — performs no action at all: no
sensor update, no world thread start, no loop iteration, no shutdown
call. -/
theorem C9_run_is_noop_while_stop_set (n : Nat) :
    stopInitial = true ∧ RunTrace true n = [] ∧ RunTrace stopInitial n = [] := by
  refine ⟨rfl, ?_, ?_⟩ <;> simp [RunTrace, stopInitial]

/-- A control message requesting a new (default empty) world. -/
def cmdNewWorld : ServerControl := { new_world := some true }

/-- A control message requesting to open `"worlds/empty.world"`. -/
def cmdOpenEmpty : ServerControl := { open_filename := some "worlds/empty.world" }

theorem OpenWorld_trace_congr (env : Env) (f : String) (s : SimState)
    (t1 t2 : List Event) :
    (OpenWorld env f { s with trace := t1 }).1 =
      (OpenWorld env f { s with trace := t2 }).1 ∧
    (OpenWorld env f { s with trace := t1 }).2.worlds =
      (OpenWorld env f { s with trace := t2 }).2.worlds ∧
    (OpenWorld env f { s with trace := t1 }).2.sensors =
      (OpenWorld env f { s with trace := t2 }).2.sensors ∧
    (OpenWorld env f { s with trace := t1 }).2.buffers =
      (OpenWorld env f { s with trace := t2 }).2.buffers ∧
    (OpenWorld env f { s with trace := t1 }).2.nextId =
      (OpenWorld env f { s with trace := t2 }).2.nextId ∧
    ∃ tl, (OpenWorld env f { s with trace := t1 }).2.trace = t1 ++ tl ∧
          (OpenWorld env f { s with trace := t2 }).2.trace = t2 ++ tl := by
  cases hI : env.sdfInitOk
  · refine ⟨?_, ?_, ?_, ?_, ?_, ⟨[.evGzerr "Unable to initialize sdf"], ?_, ?_⟩⟩ <;>
      simp [OpenWorld, hI, emit]
  · cases hR : env.readFile f
    · refine ⟨?_, ?_, ?_, ?_, ?_,
        ⟨[.evGzerr ("Unable to read sdf file[" ++ f ++ "]")], ?_, ?_⟩⟩ <;>
        simp [OpenWorld, hI, hR, emit]
    · refine ⟨?_, ?_, ?_, ?_, ?_,
        ⟨[.pubWorldModify { world_name := "default", remove := true, create := false },
          .evStopWorlds, .evRemoveWorlds, .evRemoveSensors, .evClearBuffers,
          .evCreateWorld s.nextId, .evLoadWorld s.nextId, .evInitWorld s.nextId,
          .evRunWorld s.nextId,
          .pubWorldModify { world_name := "default", remove := false, create := true }],
         ?_, ?_⟩⟩ <;>
        simp [OpenWorld, hI, hR, emit, stop_worlds, remove_worlds, remove_sensors,
          clear_buffers, create_world, load_world, init_world, run_world, updateWorld]

/-- C8: dispatching a `NewWorld` control message and dispatching an
`OpenWorld` message whose filename is `"worlds/empty.world"` both invoke
the same reload operation `OpenWorld(env, "worlds/empty.world")`, and
produce identical resulting state (worlds, sensors, buffers, instance
counter) and identical effects — in particular identical lifecycle
notifications. -/
theorem C8_new_world_equiv_open_empty (env : Env) (s : SimState) :
    execMsg env cmdNewWorld s =
      .ok (OpenWorld env "worlds/empty.world" (emit (.evExecCmd cmdNewWorld) s)).2 ∧
    execMsg env cmdOpenEmpty s =
      .ok (OpenWorld env "worlds/empty.world" (emit (.evExecCmd cmdOpenEmpty) s)).2 ∧
    (OpenWorld env "worlds/empty.world" (emit (.evExecCmd cmdNewWorld) s)).2.worlds =
      (OpenWorld env "worlds/empty.world" (emit (.evExecCmd cmdOpenEmpty) s)).2.worlds ∧
    (OpenWorld env "worlds/empty.world" (emit (.evExecCmd cmdNewWorld) s)).2.sensors =
      (OpenWorld env "worlds/empty.world" (emit (.evExecCmd cmdOpenEmpty) s)).2.sensors ∧
    (OpenWorld env "worlds/empty.world" (emit (.evExecCmd cmdNewWorld) s)).2.buffers =
      (OpenWorld env "worlds/empty.world" (emit (.evExecCmd cmdOpenEmpty) s)).2.buffers ∧
    (OpenWorld env "worlds/empty.world" (emit (.evExecCmd cmdNewWorld) s)).2.nextId =
      (OpenWorld env "worlds/empty.world" (emit (.evExecCmd cmdOpenEmpty) s)).2.nextId ∧
    effects (OpenWorld env "worlds/empty.world"
        (emit (.evExecCmd cmdNewWorld) s)).2.trace =
      effects (OpenWorld env "worlds/empty.world"
        (emit (.evExecCmd cmdOpenEmpty) s)).2.trace := by
  obtain ⟨hb, hw, hsen, hbuf, hnid, tl, ht1, ht2⟩ :=
    OpenWorld_trace_congr env "worlds/empty.world" s
      (s.trace ++ [.evExecCmd cmdNewWorld]) (s.trace ++ [.evExecCmd cmdOpenEmpty])
  refine ⟨rfl, rfl, hw, hsen, hbuf, hnid, ?_⟩
  show effects ((OpenWorld env "worlds/empty.world"
      { s with trace := s.trace ++ [.evExecCmd cmdNewWorld] }).2.trace) =
    effects ((OpenWorld env "worlds/empty.world"
      { s with trace := s.trace ++ [.evExecCmd cmdOpenEmpty] }).2.trace)
  rw [ht1, ht2, effects_append, effects_append, effects_append, effects_append]
  simp [effects]

/-- C10: dispatch precedence of one drained control message: a present
`save_world_name` selects the save action and the `new_world` and
`open_filename` fields play no part; otherwise `new_world` present and
true selects the default-empty-world reload and `open_filename` plays no
part; otherwise a present `open_filename` selects the open-world reload;
with none of the three selected the dispatch changes nothing (only the
ghost dispatch marker is recorded). -/
theorem C10_dispatch_precedence (env : Env) (m : ServerControl) (s : SimState) :
    (∀ wname, m.save_world_name = some wname →
      execMsg env m s =
        (match m.save_filename with
         | some fname =>
           (match get_world wname (emit (.evExecCmd m) s) with
            | some w => Except.ok (emit (.evSaveWorld w.id fname) (emit (.evExecCmd m) s))
            | none => Except.error ())
         | none =>
           Except.ok (emit (.evGzerr "No filename specified.")
             (emit (.evExecCmd m) s)))) ∧
    (m.save_world_name = none → m.new_world = some true →
      execMsg env m s =
        .ok (OpenWorld env "worlds/empty.world" (emit (.evExecCmd m) s)).2) ∧
    (∀ fname, m.save_world_name = none → m.new_world ≠ some true →
      m.open_filename = some fname →
      execMsg env m s = .ok (OpenWorld env fname (emit (.evExecCmd m) s)).2) ∧
    (m.save_world_name = none → m.new_world ≠ some true → m.open_filename = none →
      execMsg env m s = .ok (emit (.evExecCmd m) s)) := by
  refine ⟨?_, ?_, ?_, ?_⟩
  · intro wname hw
    unfold execMsg
    simp only [hw]
  · intro hw hn
    unfold execMsg
    simp only [hw, if_pos hn]
  · intro fname hw hn ho
    unfold execMsg
    simp only [hw, ho, if_neg hn]
  · intro hw hn ho
    unfold execMsg
    simp only [hw, ho, if_neg hn]

/-- Witness for C10: the save branch wins over the others on a concrete
message, and a field-less message changes nothing but the dispatch
marker. -/
theorem C10_witness :
    execMsg envParseOk cmdSaveNoFile sRunning =
      .ok (emit (.evGzerr "No filename specified.")
        (emit (.evExecCmd cmdSaveNoFile) sRunning)) ∧
    execMsg envParseOk cmdNoop sNoWorlds = .ok (emit (.evExecCmd cmdNoop) sNoWorlds) :=
  ⟨(C10_dispatch_precedence envParseOk cmdSaveNoFile sRunning).1 "default" rfl,
   (C10_dispatch_precedence envParseOk cmdNoop sNoWorlds).2.2.2 rfl (by decide) rfl⟩

end Gazebo
